import Mathlib

/-!
# Verification of the errbot Telegram backend

A shallow embedding of errbot/backends/telegram_messenger.py and proofs of
the specified properties: identity modelling, identifier parsing, the
update-polling loop with offset persistence, message normalization, the
outbound sender, and the unsupported room operations.

Python objects become Lean structures; the host collaborators (the message
callback, the markdown converter, the provider send call) are parameters;
exceptions become Except values; observable side effects (persisting the
cursor, logging warnings and errors, dispatching to the host callback,
the disconnect notification) become an explicit event trace.
-/

namespace TelegramMessenger

/-! ## Identity model

TelegramIdentifier is the base class in the source; TelegramPerson,
TelegramRoom and TelegramMUCOccupant subclass it.  Here each class is a
structure and the base class is the sum of the three, with the shared id
accessor defined on the sum.
-/

/-- Fields of TelegramPerson: id plus optional first name, last name,
username (any of which the provider may omit). -/
structure TelegramPerson where
  id : Int
  first_name : Option String
  last_name : Option String
  username : Option String
deriving DecidableEq, Repr

/-- Fields of TelegramRoom: id plus the optional groupchat title. -/
structure TelegramRoom where
  id : Int
  title : Option String
deriving DecidableEq, Repr

/-- Fields of TelegramMUCOccupant: the person fields plus the room the
person was observed posting in. -/
structure TelegramMUCOccupant where
  id : Int
  room : TelegramRoom
  first_name : Option String
  last_name : Option String
  username : Option String
deriving DecidableEq, Repr

/-- The TelegramIdentifier base class: any of the three identity objects. -/
inductive TelegramIdentifier where
  | person (p : TelegramPerson)
  | room (r : TelegramRoom)
  | occupant (o : TelegramMUCOccupant)
deriving DecidableEq, Repr

/-- The id property shared by every identity object. -/
def TelegramIdentifier.id : TelegramIdentifier → Int
  | .person p => p.id
  | .room r => r.id
  | .occupant o => o.id

/-- TelegramIdentifier has eq comparing self id with other id;
nothing else takes part in the comparison. -/
def TelegramIdentifier.py_eq (a b : TelegramIdentifier) : Bool :=
  a.id == b.id

/-- Python TypeError, raised for an unsupported operand type. -/
inductive PyTypeError where
  | mk
deriving DecidableEq, Repr

/-- TelegramPerson.fullname: starts from the first name and, when a last
name is present, appends a space and the last name.  When the first name
is absent but a last name is present, the append is None plus a string,
which raises TypeError in Python. -/
def TelegramPerson.fullname (p : TelegramPerson) : Except PyTypeError (Option String) :=
  match p.last_name with
  | none => .ok p.first_name
  | some l =>
    match p.first_name with
    | some f => .ok (some (f ++ " " ++ l))
    | none => .error .mk

/-! ## Unsupported room operations -/

/-- RoomsNotSupportedError carries an explanatory message. -/
structure RoomsNotSupportedError where
  message : String
deriving DecidableEq, Repr

/-- The default explanatory message installed by the constructor of
RoomsNotSupportedError when no message is passed. -/
def roomsNotSupportedDefaultMessage : String :=
  "Room operations are not supported on Telegram. " ++
  "While Telegram itself has groupchat functionality, it does not " ++
  "expose any APIs to bots to get group membership or otherwise " ++
  "interact with groupchats."

/-- The constructor of RoomsNotSupportedError: an explicit message, or the
default explanatory one when none is given. -/
def RoomsNotSupportedError.new (message : Option String) : RoomsNotSupportedError :=
  ⟨message.getD roomsNotSupportedDefaultMessage⟩

/-- TelegramRoom.join: raises RoomsNotSupportedError. -/
def TelegramRoom.join (_ : TelegramRoom) (_ _ : Option String) :
    Except RoomsNotSupportedError Unit :=
  .error (.new none)

/-- TelegramRoom.create: raises RoomsNotSupportedError. -/
def TelegramRoom.create (_ : TelegramRoom) : Except RoomsNotSupportedError Unit :=
  .error (.new none)

/-- TelegramRoom.leave: raises RoomsNotSupportedError. -/
def TelegramRoom.leave (_ : TelegramRoom) (_ : Option String) :
    Except RoomsNotSupportedError Unit :=
  .error (.new none)

/-- TelegramRoom.destroy: raises RoomsNotSupportedError. -/
def TelegramRoom.destroy (_ : TelegramRoom) : Except RoomsNotSupportedError Unit :=
  .error (.new none)

/-- The joined property of TelegramRoom: raises RoomsNotSupportedError. -/
def TelegramRoom.joined (_ : TelegramRoom) : Except RoomsNotSupportedError Bool :=
  .error (.new none)

/-- The exists property of TelegramRoom: raises RoomsNotSupportedError. -/
def TelegramRoom.exists_room (_ : TelegramRoom) : Except RoomsNotSupportedError Bool :=
  .error (.new none)

/-- The topic property of TelegramRoom: raises RoomsNotSupportedError. -/
def TelegramRoom.topic (_ : TelegramRoom) : Except RoomsNotSupportedError String :=
  .error (.new none)

/-- The occupants property of TelegramRoom: raises RoomsNotSupportedError. -/
def TelegramRoom.occupants (_ : TelegramRoom) :
    Except RoomsNotSupportedError (List TelegramMUCOccupant) :=
  .error (.new none)

/-- TelegramRoom.invite, taking any argument list: raises
RoomsNotSupportedError. -/
def TelegramRoom.invite (_ : TelegramRoom) (_ : List String) :
    Except RoomsNotSupportedError Unit :=
  .error (.new none)

/-- TelegramBackend.query_room: raises RoomsNotSupportedError. -/
def query_room (_ : String) : Except RoomsNotSupportedError TelegramRoom :=
  .error (.new none)

/-- TelegramBackend.rooms: raises RoomsNotSupportedError. -/
def rooms : Except RoomsNotSupportedError (List TelegramRoom) :=
  .error (.new none)

/-! ## Identifier parsing

build_identifier strips whitespace from the textual representation, checks
that Python int accepts the remainder, converts it, and returns a person
for a positive id and a room otherwise.  Python int on a base-10 string
ignores surrounding whitespace and then requires an optional single sign
followed by one or more decimal digits.
-/

/-- Whitespace characters removed by Python strip: the Unicode whitespace
set of CPython (category Zs together with the control characters of
bidirectional class WS, B or S), not only the six ASCII ones — strip
removes, for example, the no-break space U+00A0. -/
def isPySpace (c : Char) : Bool :=
  let n := c.toNat
  (0x9 ≤ n && n ≤ 0xD) || (0x1C ≤ n && n ≤ 0x1F) || n == 0x20 || n == 0x85 ||
  n == 0xA0 || n == 0x1680 || (0x2000 ≤ n && n ≤ 0x200A) || n == 0x2028 ||
  n == 0x2029 || n == 0x202F || n == 0x205F || n == 0x3000

/-- Python strip: remove whitespace from both ends. -/
def py_strip (cs : List Char) : List Char :=
  ((cs.dropWhile isPySpace).reverse.dropWhile isPySpace).reverse

/-- First code points of the decimal-digit ranges of the Unicode
character database (general category Nd, through Unicode 15.1, the
tables of current CPython); every range is a run of ten code points
carrying the values 0 to 9 in order.  Python int accepts a digit from
any of these ranges, not only the ASCII one. -/
def pyDigitRanges : List Nat :=
  [0x0030, 0x0660, 0x06F0, 0x07C0, 0x0966, 0x09E6, 0x0A66, 0x0AE6, 0x0B66,
   0x0BE6, 0x0C66, 0x0CE6, 0x0D66, 0x0DE6, 0x0E50, 0x0ED0, 0x0F20, 0x1040,
   0x1090, 0x17E0, 0x1810, 0x1946, 0x19D0, 0x1A80, 0x1A90, 0x1B50, 0x1BB0,
   0x1C40, 0x1C50, 0xA620, 0xA8D0, 0xA900, 0xA9D0, 0xA9F0, 0xAA50, 0xABF0,
   0xFF10, 0x104A0, 0x10D30, 0x11066, 0x110F0, 0x11136, 0x111D0, 0x112F0,
   0x11450, 0x114D0, 0x11650, 0x116C0, 0x11730, 0x118E0, 0x11950, 0x11C50,
   0x11D50, 0x11DA0, 0x11F50, 0x16A60, 0x16AC0, 0x16B50, 0x1D7CE, 0x1D7D8,
   0x1D7E2, 0x1D7EC, 0x1D7F6, 0x1E140, 0x1E2F0, 0x1E4F0, 0x1E950, 0x1FBF0]

/-- The decimal value of a Unicode decimal digit, none for any other
character. -/
def pyDigitVal (c : Char) : Option Nat :=
  match pyDigitRanges.find? (fun s => s ≤ c.toNat && c.toNat < s + 10) with
  | some s => some (c.toNat - s)
  | none => none

/-- Whether a character is a decimal digit for Python int. -/
def isPyDigit (c : Char) : Bool :=
  (pyDigitVal c).isSome

/-- Value of the remainder of a digit run after its first digit, given
the accumulated value and whether the previous character was an
underscore: digits extend the value; an underscore is accepted only
after a digit and only when a digit eventually follows (the grouping
Python allows since 3.6, with no leading, trailing or doubled
underscores); anything else rejects. -/
def digitsVal (acc : Nat) (afterUnd : Bool) : List Char → Option Nat
  | [] => if afterUnd then none else some acc
  | c :: rest =>
    match pyDigitVal c with
    | some d => digitsVal (10 * acc + d) false rest
    | none =>
      if c = '_' then
        if afterUnd then none else digitsVal acc true rest
      else none

/-- The digit-run part of Python int: one or more Unicode decimal digits,
with single underscores permitted between digits. -/
def parseDigits : List Char → Option Nat
  | [] => none
  | c :: rest =>
    match pyDigitVal c with
    | some d => digitsVal d false rest
    | none => none

/-- The core of Python int on an already stripped string: an optional
single ASCII sign followed by a digit run, anything else raises
ValueError (here: none). -/
def parseSigned (cs : List Char) : Option Int :=
  match cs with
  | [] => none
  | c :: rest =>
    if c = '+' then (parseDigits rest).map Int.ofNat
    else if c = '-' then (parseDigits rest).map (fun n => -Int.ofNat n)
    else (parseDigits (c :: rest)).map Int.ofNat

/-- Python int applied to a string: surrounding whitespace is ignored,
the rest must be an optionally signed run of Unicode decimal digits,
with single underscores permitted between digits. -/
def py_int (cs : List Char) : Option Int :=
  parseSigned (py_strip cs)

/-- The static helper is numeric of the backend: true exactly when Python
int accepts the input. -/
def is_numeric (cs : List Char) : Bool :=
  (py_int cs).isSome

/-- Python ValueError with its message. -/
structure ValueError where
  message : String
deriving DecidableEq, Repr

/-- TelegramBackend.build_identifier: strip the textual representation,
reject unless it is numeric, convert to an integer; a positive id gives a
TelegramPerson, a non-positive one a TelegramRoom. -/
def build_identifier (txtrep : String) : Except ValueError TelegramIdentifier :=
  let id_ := py_strip txtrep.data
  if is_numeric id_ then
    match py_int id_ with
    | some n =>
      if 0 < n then .ok (.person ⟨n, none, none, none⟩)
      else .ok (.room ⟨n, none⟩)
    | none => .error ⟨"Telegram identifiers must be numeric"⟩
  else .error ⟨"Telegram identifiers must be numeric"⟩

/-- Modelled from the spec: a string is strictly numeric, optionally
signed, when it is one or more decimal digits preceded by at most one
sign character. -/
def specStrictlyNumeric (cs : List Char) : Bool :=
  match cs with
  | [] => false
  | c :: rest =>
    if c = '+' || c = '-' then !rest.isEmpty && rest.all Char.isDigit
    else (c :: rest).all Char.isDigit

/-- No two consecutive underscore characters in the run. -/
def noDoubleUnd : List Char → Bool
  | [] => true
  | [_] => true
  | a :: b :: t => !((a == '_') && (b == '_')) && noDoubleUnd (b :: t)

/-- The run ends with a decimal digit (false for the empty run). -/
def endsWithDigit (r : List Char) : Bool :=
  match r.getLast? with
  | some c => isPyDigit c
  | none => false

/-- The run starts with a decimal digit (false for the empty run). -/
def headIsDigit (r : List Char) : Bool :=
  match r.head? with
  | some c => isPyDigit c
  | none => false

/-- Everything a digit run requires apart from its first character:
every character a digit or an underscore, no two consecutive
underscores, and a digit last (vacuous for the empty remainder). -/
def tailOk (t : List Char) : Bool :=
  t.all (fun x => isPyDigit x || x = '_') && noDoubleUnd t &&
    (t.isEmpty || endsWithDigit t)

/-- Modelled from the amended reading of the spec: a digit run starts
with a Unicode decimal digit, consists of digits and underscores with no
two consecutive underscores, and ends with a digit. -/
def specDigitRun (r : List Char) : Bool :=
  headIsDigit r && tailOk r

/-- Modelled from the amended reading of the spec: numeric in Python
int's sense means an optional single sign followed by a digit run. -/
def specPyNumeric (cs : List Char) : Bool :=
  match cs with
  | [] => false
  | c :: rest =>
    if c = '+' || c = '-' then specDigitRun rest
    else specDigitRun (c :: rest)

/-- The acceptance condition mirrored by digitsVal: whether the
remainder of a digit run is accepted, given whether the previous
character was an underscore. -/
def contRun (afterUnd : Bool) : List Char → Bool
  | [] => !afterUnd
  | c :: t =>
    match pyDigitVal c with
    | some _ => contRun false t
    | none =>
      if c = '_' then !afterUnd && contRun true t
      else false

/-! ## Raw updates and the message normalizer

A telegram update carries a sequence id and, for the update shapes this
backend handles, a message; the message carries an optional text payload,
the originating chat, and the originating user.  The source distinguishes
a direct chat from a group chat by the runtime type of the chat field
(a User object versus a GroupChat object); here that is a tagged union.
-/

/-- A telegram User record: the fields this backend reads. -/
structure TelegramUser where
  id : Int
  first_name : Option String
  last_name : Option String
  username : Option String
deriving DecidableEq, Repr

/-- The chat field of a message: a User object for a direct chat, or a
group chat with id and title. -/
inductive Chat where
  | user (u : TelegramUser)
  | group (id : Int) (title : Option String)
deriving DecidableEq, Repr

/-- A telegram Message record: optional text payload, originating chat,
originating user. -/
structure RawMessage where
  text : Option String
  chat : Chat
  from_user : TelegramUser
deriving DecidableEq, Repr

/-- One update from getUpdates: a sequence id and, when the update is of
a shape carrying a message attribute, that message. -/
structure Update where
  update_id : Int
  message : Option RawMessage
deriving DecidableEq, Repr

/-- The generic host message: text body plus sender and recipient
identities, as filled in by the normalizer. -/
structure NormalizedMessage where
  body : String
  frm : TelegramIdentifier
  «to» : TelegramIdentifier
deriving DecidableEq, Repr

/-- An arbitrary Python exception escaping a host collaborator. -/
structure PyExc where
  info : String
deriving DecidableEq, Repr

/-- Observable side effects of the backend: persisting the cursor to the
host key-value store, logged warnings and logged exceptions, dispatching
a normalized message to the host callback, and the disconnect
notification.  Debug-level logs are not modelled. -/
inductive Event where
  | persist (key : String) (value : Int)
  | warn (msg : String)
  | errorLogged (msg : String)
  | dispatch (m : NormalizedMessage)
  | disconnect
deriving DecidableEq, Repr

/-- The body of the normalizer for a message whose text is present:
a direct chat gives a TelegramPerson sender built from the from_user
fields with the bot's own identity as recipient; a group chat gives a
TelegramMUCOccupant sender wrapping the from_user fields plus the
TelegramRoom built from the chat fields, with that room as recipient. -/
def normalize_message (bot_identifier : TelegramIdentifier) (m : RawMessage)
    (t : String) : NormalizedMessage :=
  match m.chat with
  | .user _ =>
    { body := t
      frm := .person ⟨m.from_user.id, m.from_user.first_name,
        m.from_user.last_name, m.from_user.username⟩
      «to» := bot_identifier }
  | .group cid ctitle =>
    { body := t
      frm := .occupant ⟨m.from_user.id, ⟨cid, ctitle⟩, m.from_user.first_name,
        m.from_user.last_name, m.from_user.username⟩
      «to» := .room ⟨cid, ctitle⟩ }

/-- TelegramBackend handle message: a message without text is ignored
with a warning and produces nothing; otherwise the normalized message is
built and handed to the host callback cb, whose exception, if any,
propagates to the caller.  The first component reports the message the
handler produced, the second the events; a dispatch event records the
callback invocation. -/
def handle_message (cb : NormalizedMessage → Except PyExc Unit)
    (bot_identifier : TelegramIdentifier) (m : RawMessage) :
    Except PyExc (Option NormalizedMessage) × List Event :=
  match m.text with
  | none => (.ok none, [.warn "Unhandled message type (not a text message) ignored"])
  | some t =>
    let message_instance := normalize_message bot_identifier m t
    match cb message_instance with
    | .ok _ => (.ok (some message_instance), [.dispatch message_instance])
    | .error e => (.error e, [.dispatch message_instance])

/-! ## The polling loop of serve_once -/

/-- The fixed key the cursor is persisted under. -/
def offsetKey : String := "_telegram_updates_offset"

/-- Host key-value store write. -/
def kv_set : List (String × Int) → String → Int → List (String × Int)
  | [], k, v => [(k, v)]
  | (k', v') :: rest, k, v =>
    if k' = k then (k, v) :: rest else (k', v') :: kv_set rest k v

/-- Host key-value store read. -/
def kv_get : List (String × Int) → String → Option Int
  | [], _ => none
  | (k', v') :: rest, k => if k' = k then some v' else kv_get rest k

/-- Loop-owned state: the in-memory offset and the host key-value
store. -/
structure LoopState where
  offset : Int
  store : List (String × Int)
deriving DecidableEq, Repr

/-- The body of the for loop over one update: advance the offset to the
update's sequence id plus one and persist it under the fixed key; then,
if the update has no message attribute, warn and continue; otherwise run
the handler, catching and logging any exception it raises so that the
batch continues with the next update. -/
def process_update (cb : NormalizedMessage → Except PyExc Unit)
    (bot_identifier : TelegramIdentifier) (st : LoopState) (u : Update) :
    LoopState × List Event :=
  let offset := u.update_id + 1
  let st' : LoopState := ⟨offset, kv_set st.store offsetKey offset⟩
  match u.message with
  | none =>
    (st', [.persist offsetKey offset, .warn "Unknown update type (no message present)"])
  | some m =>
    match handle_message cb bot_identifier m with
    | (.ok _, evs) => (st', Event.persist offsetKey offset :: evs)
    | (.error _, evs) =>
      (st', Event.persist offsetKey offset :: evs ++
        [.errorLogged "An exception occurred while processing update"])

/-- The for loop over one fetched batch, in arrival order. -/
def process_batch (cb : NormalizedMessage → Except PyExc Unit)
    (bot_identifier : TelegramIdentifier) (st : LoopState) :
    List Update → LoopState × List Event
  | [] => (st, [])
  | u :: rest =>
    let r := process_update cb bot_identifier st u
    let r' := process_batch cb bot_identifier r.1 rest
    (r'.1, r.2 ++ r'.2)

/-- Successive getUpdates batches processed by the while loop. -/
def process_batches (cb : NormalizedMessage → Except PyExc Unit)
    (bot_identifier : TelegramIdentifier) (st : LoopState) :
    List (List Update) → LoopState × List Event
  | [] => (st, [])
  | b :: rest =>
    let r := process_batch cb bot_identifier st b
    let r' := process_batches cb bot_identifier r.1 rest
    (r'.1, r.2 ++ r'.2)

/-- How the while loop ends: a KeyboardInterrupt observed at the fetch
boundary, or an error raised by the getUpdates fetch itself. -/
inductive FetchEnd where
  | interrupted
  | fetchError
deriving DecidableEq, Repr

/-- The polling part of serve_once: the while loop processes the fetched
batches until the ending event.  A KeyboardInterrupt is caught and True
is returned; a fetch error is caught by the bare except clause, logged,
and the function falls off the end returning None; the finally clause
fires the disconnect notification on both paths.  The first component is
the Python return value (none models returning None). -/
def serve_once_polling (cb : NormalizedMessage → Except PyExc Unit)
    (bot_identifier : TelegramIdentifier) (st : LoopState)
    (batches : List (List Update)) (fin : FetchEnd) :
    Option Bool × LoopState × List Event :=
  let r := process_batches cb bot_identifier st batches
  match fin with
  | .interrupted => (some true, r.1, r.2 ++ [.disconnect])
  | .fetchError =>
    (none, r.1,
      r.2 ++ [.errorLogged "Error reading from Telegram updates stream:", .disconnect])

/-- Number of disconnect notifications in a trace. -/
def countDisconnect : List Event → Nat
  | [] => 0
  | .disconnect :: t => countDisconnect t + 1
  | _ :: t => countDisconnect t

/-- Whether an event is a cursor persist. -/
def isPersist : Event → Bool
  | .persist _ _ => true
  | _ => false

/-! ## The outbound sender -/

/-- The fields of an outgoing message that send_message reads. -/
structure OutgoingMessage where
  body : String
  «to» : TelegramIdentifier
deriving DecidableEq, Repr

/-- Observable effects of send_message: the sendMessage call to the
provider, and the failure log carrying the recipient id and the original
message body. -/
inductive SendEvent where
  | sendAttempt (chat_id : Int) (text : String)
  | sendFailureLogged (recipient : Int) (body : String)
deriving DecidableEq, Repr

/-- TelegramBackend.send_message: convert the body through the markdown
converter, call the provider sendMessage with the recipient id; on an
exception, log it together with the recipient id and the original body,
then re-raise it.  The host-side super call and the converter are
external collaborators and are parameters. -/
def send_message (convert : String → String)
    (tg_send : Int → String → Except PyExc Unit) (mess : OutgoingMessage) :
    Except PyExc Unit × List SendEvent :=
  let body := convert mess.body
  match tg_send mess.«to».id body with
  | .ok _ => (.ok (), [.sendAttempt mess.«to».id body])
  | .error e =>
    (.error e,
      [.sendAttempt mess.«to».id body, .sendFailureLogged mess.«to».id mess.body])

end TelegramMessenger

namespace TelegramMessenger

/-! ## Lemmas: strip is idempotent, parseSigned matches the spec shape -/

theorem dropWhile_head_not {p : Char → Bool} {l : List Char} {a : Char}
    (h : (l.dropWhile p).head? = some a) : p a = false := by
  induction l with
  | nil => simp [List.dropWhile] at h
  | cons c t ih =>
    rw [List.dropWhile_cons] at h
    by_cases hc : p c
    · simp [hc] at h
      exact ih h
    · simp [hc] at h
      simpa [← h] using hc

theorem dropWhile_eq_self_of_head {p : Char → Bool} {l : List Char}
    (h : ∀ a, l.head? = some a → p a = false) : l.dropWhile p = l := by
  cases l with
  | nil => rfl
  | cons c t =>
    rw [List.dropWhile_cons]
    simp [h c rfl]

theorem getLast?_dropWhile {p : Char → Bool} {l : List Char}
    (h : l.dropWhile p ≠ []) : (l.dropWhile p).getLast? = l.getLast? := by
  conv_rhs => rw [← List.takeWhile_append_dropWhile (p := p) (l := l)]
  exact (List.getLast?_append_of_ne_nil _ h).symm

theorem py_strip_head_not {cs : List Char} {a : Char}
    (h : (py_strip cs).head? = some a) : isPySpace a = false := by
  unfold py_strip at h
  rw [List.head?_reverse] at h
  have hne : (cs.dropWhile isPySpace).reverse.dropWhile isPySpace ≠ [] := by
    intro hnil
    rw [hnil] at h
    simp at h
  rw [getLast?_dropWhile hne] at h
  rw [List.getLast?_reverse] at h
  exact dropWhile_head_not h

theorem py_strip_getLast_not {cs : List Char} {a : Char}
    (h : (py_strip cs).getLast? = some a) : isPySpace a = false := by
  unfold py_strip at h
  rw [List.getLast?_reverse] at h
  exact dropWhile_head_not h

theorem py_strip_eq_self {l : List Char}
    (hh : ∀ a, l.head? = some a → isPySpace a = false)
    (hl : ∀ a, l.getLast? = some a → isPySpace a = false) : py_strip l = l := by
  unfold py_strip
  rw [dropWhile_eq_self_of_head hh]
  rw [dropWhile_eq_self_of_head fun a ha =>
    hl a (by rwa [List.head?_reverse] at ha)]
  exact List.reverse_reverse l

/-- Stripping an already stripped string changes nothing. -/
theorem py_strip_idem (cs : List Char) : py_strip (py_strip cs) = py_strip cs :=
  py_strip_eq_self (fun _ ha => py_strip_head_not ha)
    (fun _ ha => py_strip_getLast_not ha)

theorem isPyDigit_not_underscore {c : Char} (h : isPyDigit c = true) :
    ¬(c = '_') := by
  intro hh
  subst hh
  exact absurd h (by decide)

theorem tailOk_cons_digit {c : Char} (hd : isPyDigit c = true) (t : List Char) :
    tailOk (c :: t) = tailOk t := by
  have hb : (c == '_') = false :=
    beq_eq_false_iff_ne.mpr (isPyDigit_not_underscore hd)
  cases t with
  | nil => simp [tailOk, noDoubleUnd, endsWithDigit, hd]
  | cons b t2 =>
    simp [tailOk, noDoubleUnd, endsWithDigit, hd, hb, List.getLast?_cons_cons]

theorem tailOk_cons_underscore (r : List Char) :
    tailOk ('_' :: r) = specDigitRun r := by
  cases r with
  | nil => decide
  | cons c' r' =>
    by_cases hd' : isPyDigit c' = true
    · have hb' : (c' == '_') = false :=
        beq_eq_false_iff_ne.mpr (isPyDigit_not_underscore hd')
      simp [tailOk, specDigitRun, headIsDigit, noDoubleUnd, endsWithDigit,
        hd', hb', List.getLast?_cons_cons]
    · have hd2 : isPyDigit c' = false := by
        revert hd'
        cases isPyDigit c' <;> simp
      by_cases hc' : c' = '_'
      · subst hc'
        simp [tailOk, specDigitRun, headIsDigit, noDoubleUnd, endsWithDigit, hd2]
      · have hb' : (c' == '_') = false := beq_eq_false_iff_ne.mpr hc'
        simp [tailOk, specDigitRun, headIsDigit, noDoubleUnd, hd2, hb', hc']

theorem digitsVal_isSome (t : List Char) : ∀ (acc : Nat) (u : Bool),
    (digitsVal acc u t).isSome = contRun u t := by
  induction t with
  | nil =>
    intro acc u
    cases u <;> rfl
  | cons c t ih =>
    intro acc u
    unfold digitsVal contRun
    cases h : pyDigitVal c with
    | some d => exact ih (10 * acc + d) false
    | none =>
      by_cases hu : c = '_'
      · rw [if_pos hu, if_pos hu]
        cases u with
        | false => simpa using ih acc true
        | true => simp
      · rw [if_neg hu, if_neg hu]
        rfl

theorem contRun_eq (t : List Char) :
    contRun false t = tailOk t ∧ contRun true t = specDigitRun t := by
  induction t with
  | nil => exact ⟨rfl, rfl⟩
  | cons c t ih =>
    cases h : pyDigitVal c with
    | some d =>
      have hd : isPyDigit c = true := by simp [isPyDigit, h]
      have e : ∀ u : Bool, contRun u (c :: t) = contRun false t := by
        intro u
        have e0 : contRun u (c :: t) =
            (match pyDigitVal c with
              | some _ => contRun false t
              | none => if c = '_' then !u && contRun true t else false) := rfl
        rw [e0, h]
      constructor
      · rw [e false, ih.1, tailOk_cons_digit hd]
      · rw [e true, ih.1, ← tailOk_cons_digit hd t]
        simp [specDigitRun, headIsDigit, hd]
    | none =>
      by_cases hu : c = '_'
      · subst hu
        have e : ∀ u : Bool, contRun u ('_' :: t) = (!u && contRun true t) := by
          intro u
          have e0 : contRun u ('_' :: t) =
              (match pyDigitVal '_' with
                | some _ => contRun false t
                | none => if '_' = '_' then !u && contRun true t else false) := rfl
          rw [e0, show pyDigitVal '_' = none from by decide]
          rw [if_pos rfl]
        constructor
        · rw [e false, ih.2, tailOk_cons_underscore]
          simp
        · rw [e true]
          have hund : isPyDigit '_' = false := by decide
          simp [specDigitRun, headIsDigit, hund]
      · have hd : isPyDigit c = false := by simp [isPyDigit, h]
        have e : ∀ u : Bool, contRun u (c :: t) = false := by
          intro u
          have e0 : contRun u (c :: t) =
              (match pyDigitVal c with
                | some _ => contRun false t
                | none => if c = '_' then !u && contRun true t else false) := rfl
          rw [e0, h]
          rw [if_neg hu]
        constructor
        · rw [e false]
          simp [tailOk, hd, hu]
        · rw [e true]
          simp [specDigitRun, headIsDigit, hd]

theorem parseDigits_isSome (r : List Char) :
    (parseDigits r).isSome = specDigitRun r := by
  cases r with
  | nil => rfl
  | cons c t =>
    have e0 : parseDigits (c :: t) =
        (match pyDigitVal c with
          | some d => digitsVal d false t
          | none => none) := rfl
    rw [e0]
    cases h : pyDigitVal c with
    | none =>
      have hd : isPyDigit c = false := by simp [isPyDigit, h]
      show (Option.none : Option Nat).isSome = specDigitRun (c :: t)
      simp [specDigitRun, headIsDigit, hd]
    | some d =>
      have hd : isPyDigit c = true := by simp [isPyDigit, h]
      show (digitsVal d false t).isSome = specDigitRun (c :: t)
      rw [digitsVal_isSome, (contRun_eq t).1, ← tailOk_cons_digit hd t]
      simp [specDigitRun, headIsDigit, hd]

/-- parseSigned accepts exactly the numeric strings in Python int's
sense: an optional single sign followed by a digit run. -/
theorem parseSigned_isSome_iff (cs : List Char) :
    (parseSigned cs).isSome = specPyNumeric cs := by
  cases cs with
  | nil => rfl
  | cons c rest =>
    by_cases hp : c = '+'
    · subst hp
      have e1 : parseSigned ('+' :: rest) = (parseDigits rest).map Int.ofNat := rfl
      have e2 : specPyNumeric ('+' :: rest) = specDigitRun rest := rfl
      rw [e1, e2, Option.isSome_map', parseDigits_isSome]
    · by_cases hm : c = '-'
      · subst hm
        have e1 : parseSigned ('-' :: rest) =
            (parseDigits rest).map (fun n => -Int.ofNat n) := rfl
        have e2 : specPyNumeric ('-' :: rest) = specDigitRun rest := rfl
        rw [e1, e2, Option.isSome_map', parseDigits_isSome]
      · have hcond : ¬((c = '+' || c = '-') = true) := by
          simp [hp, hm]
        have e1 : parseSigned (c :: rest) =
            (parseDigits (c :: rest)).map Int.ofNat := by
          have e0 : parseSigned (c :: rest) =
              (if c = '+' then (parseDigits rest).map Int.ofNat
               else if c = '-' then (parseDigits rest).map (fun n => -Int.ofNat n)
               else (parseDigits (c :: rest)).map Int.ofNat) := rfl
          rw [e0, if_neg hp, if_neg hm]
        have e2 : specPyNumeric (c :: rest) = specDigitRun (c :: rest) := by
          have e0 : specPyNumeric (c :: rest) =
              (if c = '+' || c = '-' then specDigitRun rest
               else specDigitRun (c :: rest)) := rfl
          rw [e0, if_neg hcond]
        rw [e1, e2, Option.isSome_map', parseDigits_isSome]

/-- C3, counterexample to the claim as stated: strictly numeric
(optionally signed) read literally does not hold of the Arabic-Indic
digit string, nor of an underscore-grouped one, yet build_identifier
does not reject them: Python int accepts Unicode decimal digits (and,
since 3.6, underscores between digits), so the code returns a
TelegramPerson with ids 24 and 10 for these inputs. -/
theorem build_identifier_strictly_numeric_counterexample :
    specStrictlyNumeric (py_strip "٢٤".data) = false ∧
    build_identifier "٢٤" = .ok (.person ⟨24, none, none, none⟩) ∧
    specStrictlyNumeric (py_strip "1_0".data) = false ∧
    build_identifier "1_0" = .ok (.person ⟨10, none, none, none⟩) := by
  refine ⟨by decide, rfl, by decide, rfl⟩

/-- C3 as amended: build_identifier trims surrounding whitespace (the
Unicode whitespace Python strip removes) and requires the remainder to
be numeric in Python int's sense — an optional single sign followed by
a nonempty run of Unicode decimal digits with single underscores
permitted between digits — rejecting every other string with an error;
an accepted positive value gives a TelegramPerson with that id and an
accepted non-positive value a TelegramRoom with that id. -/
theorem build_identifier_py_numeric (s : String) :
    (specPyNumeric (py_strip s.data) = false →
      build_identifier s = .error ⟨"Telegram identifiers must be numeric"⟩) ∧
    (∀ n : Int, parseSigned (py_strip s.data) = some n →
      build_identifier s =
        if 0 < n then .ok (.person ⟨n, none, none, none⟩)
        else .ok (.room ⟨n, none⟩)) := by
  have hidem : py_int (py_strip s.data) = parseSigned (py_strip s.data) := by
    unfold py_int
    rw [py_strip_idem]
  constructor
  · intro hspec
    have hsome : (parseSigned (py_strip s.data)).isSome = false := by
      rw [parseSigned_isSome_iff]
      exact hspec
    have hnum : is_numeric (py_strip s.data) = false := by
      unfold is_numeric
      rw [hidem]
      exact hsome
    unfold build_identifier
    simp [hnum]
  · intro n hn
    have hnum : is_numeric (py_strip s.data) = true := by
      unfold is_numeric
      rw [hidem, hn]
      rfl
    unfold build_identifier
    simp [hnum, hidem, hn]

/-- Witness for the amended C3: a non-numeric string is rejected, a
positive numeric string gives a person with that id, a negative one a
room with that id, and a no-break-space padded numeric string is
stripped and accepted as the code accepts it. -/
theorem build_identifier_py_numeric_witness :
    build_identifier "12ab" = .error ⟨"Telegram identifiers must be numeric"⟩ ∧
    build_identifier " 42 " = .ok (.person ⟨42, none, none, none⟩) ∧
    build_identifier " -7 " = .ok (.room ⟨-7, none⟩) ∧
    build_identifier " 42" = .ok (.person ⟨42, none, none, none⟩) := by
  refine ⟨?_, ?_, ?_, ?_⟩
  · exact (build_identifier_py_numeric "12ab").1 (by decide)
  · exact ((build_identifier_py_numeric " 42 ").2 42 (by decide)).trans
      (if_pos (by norm_num))
  · exact ((build_identifier_py_numeric " -7 ").2 (-7) (by decide)).trans
      (if_neg (by norm_num))
  · exact ((build_identifier_py_numeric " 42").2 42 (by decide)).trans
      (if_pos (by norm_num))

/-! ## Lemmas: the shape of the event traces -/

theorem handle_message_snd_of_text {cb : NormalizedMessage → Except PyExc Unit}
    {bid : TelegramIdentifier} {m : RawMessage} {t : String} (h : m.text = some t) :
    (handle_message cb bid m).2 = [.dispatch (normalize_message bid m t)] := by
  unfold handle_message
  rw [h]
  cases h' : cb (normalize_message bid m t) <;> simp [h']

theorem handle_message_events {cb : NormalizedMessage → Except PyExc Unit}
    {bid : TelegramIdentifier} {m : RawMessage} :
    ∀ e ∈ (handle_message cb bid m).2,
      (∃ s, e = Event.warn s) ∨ (∃ nm, e = Event.dispatch nm) := by
  intro e he
  unfold handle_message at he
  cases hm : m.text with
  | none =>
    rw [hm] at he
    simp at he
    exact Or.inl ⟨_, he⟩
  | some t =>
    rw [hm] at he
    cases h' : cb (normalize_message bid m t) with
    | ok v =>
      simp [h'] at he
      exact Or.inr ⟨_, he⟩
    | error err =>
      simp [h'] at he
      exact Or.inr ⟨_, he⟩

theorem process_update_fst (cb : NormalizedMessage → Except PyExc Unit)
    (bid : TelegramIdentifier) (st : LoopState) (u : Update) :
    (process_update cb bid st u).1 =
      ⟨u.update_id + 1, kv_set st.store offsetKey (u.update_id + 1)⟩ := by
  unfold process_update
  cases u.message with
  | none => rfl
  | some m =>
    rcases h : handle_message cb bid m with ⟨res, evs⟩
    cases res with
    | ok v => simp [h]
    | error e => simp [h]

theorem process_update_snd (cb : NormalizedMessage → Except PyExc Unit)
    (bid : TelegramIdentifier) (st : LoopState) (u : Update) :
    ∃ tail, (process_update cb bid st u).2 =
        Event.persist offsetKey (u.update_id + 1) :: tail ∧
      ∀ e ∈ tail, ((∃ s, e = Event.warn s) ∨ (∃ nm, e = Event.dispatch nm) ∨
        (∃ s, e = Event.errorLogged s)) := by
  unfold process_update
  cases u.message with
  | none =>
    refine ⟨_, rfl, ?_⟩
    intro e he
    simp at he
    exact Or.inl ⟨_, he⟩
  | some m =>
    rcases h : handle_message cb bid m with ⟨res, evs⟩
    have hevs : ∀ e ∈ evs, (∃ s, e = Event.warn s) ∨ (∃ nm, e = Event.dispatch nm) := by
      intro e he
      exact handle_message_events e (by rw [h] at *; exact he)
    cases res with
    | ok v =>
      refine ⟨evs, by simp [h], ?_⟩
      intro e he
      rcases hevs e he with h1 | h2
      · exact Or.inl h1
      · exact Or.inr (Or.inl h2)
    | error err =>
      refine ⟨evs ++ [.errorLogged "An exception occurred while processing update"],
        by simp [h], ?_⟩
      intro e he
      rcases List.mem_append.mp he with h' | h'
      · rcases hevs e h' with h1 | h2
        · exact Or.inl h1
        · exact Or.inr (Or.inl h2)
      · simp at h'
        exact Or.inr (Or.inr ⟨_, h'⟩)

theorem kv_get_set_self (st : List (String × Int)) (k : String) (v : Int) :
    kv_get (kv_set st k v) k = some v := by
  induction st with
  | nil => simp [kv_set, kv_get]
  | cons p rest ih =>
    rcases p with ⟨k', v'⟩
    by_cases h : k' = k
    · simp [kv_set, kv_get, h]
    · simp [kv_set, kv_get, h, ih]

theorem process_update_persist_mem (cb : NormalizedMessage → Except PyExc Unit)
    (bid : TelegramIdentifier) (st : LoopState) (u : Update) :
    Event.persist offsetKey (u.update_id + 1) ∈ (process_update cb bid st u).2 := by
  rcases process_update_snd cb bid st u with ⟨tail, heq, -⟩
  rw [heq]
  exact List.mem_cons_self _ _

theorem countDisconnect_append (a b : List Event) :
    countDisconnect (a ++ b) = countDisconnect a + countDisconnect b := by
  induction a with
  | nil => simp [countDisconnect]
  | cons e t ih =>
    cases e with
    | persist k v => simp [countDisconnect, ih]
    | warn s => simp [countDisconnect, ih]
    | errorLogged s => simp [countDisconnect, ih]
    | dispatch nm => simp [countDisconnect, ih]
    | disconnect =>
      simp [countDisconnect, ih]
      omega

theorem countDisconnect_eq_zero :
    ∀ l : List Event, (∀ e ∈ l, e ≠ Event.disconnect) → countDisconnect l = 0 := by
  intro l
  induction l with
  | nil => intro _; rfl
  | cons e t ih =>
    intro h
    cases e with
    | disconnect => exact absurd rfl (h _ (List.mem_cons_self _ _))
    | persist k v => exact ih fun x hx => h x (List.mem_cons_of_mem _ hx)
    | warn s => exact ih fun x hx => h x (List.mem_cons_of_mem _ hx)
    | errorLogged s => exact ih fun x hx => h x (List.mem_cons_of_mem _ hx)
    | dispatch nm => exact ih fun x hx => h x (List.mem_cons_of_mem _ hx)

theorem countDisconnect_process_update (cb : NormalizedMessage → Except PyExc Unit)
    (bid : TelegramIdentifier) (st : LoopState) (u : Update) :
    countDisconnect (process_update cb bid st u).2 = 0 := by
  rcases process_update_snd cb bid st u with ⟨tail, heq, htail⟩
  rw [heq]
  refine countDisconnect_eq_zero _ ?_
  intro e he
  rcases List.mem_cons.mp he with rfl | he'
  · simp
  · rcases htail e he' with ⟨s, rfl⟩ | ⟨nm, rfl⟩ | ⟨s, rfl⟩ <;> simp

theorem countDisconnect_process_batch (cb : NormalizedMessage → Except PyExc Unit)
    (bid : TelegramIdentifier) (st : LoopState) (batch : List Update) :
    countDisconnect (process_batch cb bid st batch).2 = 0 := by
  induction batch generalizing st with
  | nil => rfl
  | cons u rest ih =>
    show countDisconnect ((process_update cb bid st u).2 ++ _) = 0
    rw [countDisconnect_append, countDisconnect_process_update, ih]

theorem countDisconnect_process_batches (cb : NormalizedMessage → Except PyExc Unit)
    (bid : TelegramIdentifier) (st : LoopState) (batches : List (List Update)) :
    countDisconnect (process_batches cb bid st batches).2 = 0 := by
  induction batches generalizing st with
  | nil => rfl
  | cons b rest ih =>
    show countDisconnect ((process_batch cb bid st b).2 ++ _) = 0
    rw [countDisconnect_append, countDisconnect_process_batch, ih]

/-! ## Theorems: the polling loop -/

/-- C2: processing one update first advances and persists the cursor to
the update's sequence id plus one under the fixed key, and only then
normalizes and dispatches: the persist event heads the trace of the
update, no later event of that update is a persist, and the store read
back after the update holds the advanced cursor. -/
theorem process_update_persist_before_dispatch
    (cb : NormalizedMessage → Except PyExc Unit) (bid : TelegramIdentifier)
    (st : LoopState) (u : Update) :
    (process_update cb bid st u).2.head? =
      some (Event.persist offsetKey (u.update_id + 1)) ∧
    (∀ e ∈ (process_update cb bid st u).2.tail, isPersist e = false) ∧
    kv_get (process_update cb bid st u).1.store offsetKey = some (u.update_id + 1) := by
  rcases process_update_snd cb bid st u with ⟨tail, heq, htail⟩
  refine ⟨by rw [heq]; rfl, ?_, ?_⟩
  · rw [heq]
    intro e he
    rcases htail e he with ⟨s, rfl⟩ | ⟨nm, rfl⟩ | ⟨s, rfl⟩ <;> rfl
  · rw [process_update_fst]
    exact kv_get_set_self st.store offsetKey (u.update_id + 1)

/-- C5: an update without a usable text payload is discarded with a
logged warning: a message without text makes the handler produce no
normalized message, invoke no callback (the result is the same for every
callback and contains no dispatch event) and raise no error; an update
without a message attribute is skipped with a warning right after the
cursor persist, again with no dispatch and no error. -/
theorem handle_message_discard_no_text :
    (∀ (cb : NormalizedMessage → Except PyExc Unit) (bid : TelegramIdentifier)
      (m : RawMessage), m.text = none →
      handle_message cb bid m =
        (.ok none, [.warn "Unhandled message type (not a text message) ignored"])) ∧
    (∀ (cb : NormalizedMessage → Except PyExc Unit) (bid : TelegramIdentifier)
      (st : LoopState) (u : Update), u.message = none →
      (process_update cb bid st u).2 =
        [.persist offsetKey (u.update_id + 1),
         .warn "Unknown update type (no message present)"]) := by
  constructor
  · intro cb bid m h
    unfold handle_message
    rw [h]
  · intro cb bid st u h
    unfold process_update
    rw [h]

/-- Witness for C5 at a concrete textless message and a concrete
messageless update, under a callback that would fail if it were ever
invoked. -/
theorem handle_message_discard_no_text_witness :
    handle_message (fun _ => .error ⟨"boom"⟩) (.person ⟨1, none, none, none⟩)
        ⟨none, .user ⟨2, none, none, none⟩, ⟨2, none, none, none⟩⟩ =
      (.ok none, [.warn "Unhandled message type (not a text message) ignored"]) ∧
    (process_update (fun _ => .error ⟨"boom"⟩) (.person ⟨1, none, none, none⟩)
        ⟨0, []⟩ ⟨5, none⟩).2 =
      [.persist offsetKey 6, .warn "Unknown update type (no message present)"] := by
  constructor
  · exact handle_message_discard_no_text.1 _ _ _ rfl
  · exact handle_message_discard_no_text.2 _ _ _ _ rfl

/-! ## Theorems: identity model and room operations -/

/-- C9: equality of identity objects holds exactly when the numeric ids
are equal; names, usernames, titles and the room association play no role. -/
theorem telegram_identifier_eq_by_id_only :
    ∀ a b : TelegramIdentifier, a.py_eq b = true ↔ a.id = b.id := by
  intro a b
  simp [TelegramIdentifier.py_eq]

/-- C10: fullname returns the first name alone when the last name is
absent, first name, space, last name when both are present, and raises
TypeError for a person with no first name but a present last name. -/
theorem telegram_person_fullname_spec :
    (∀ p : TelegramPerson, p.last_name = none → p.fullname = .ok p.first_name) ∧
    (∀ (p : TelegramPerson) (f l : String),
      p.first_name = some f → p.last_name = some l →
      p.fullname = .ok (some (f ++ " " ++ l))) ∧
    (∀ (p : TelegramPerson) (l : String),
      p.first_name = none → p.last_name = some l →
      p.fullname = .error PyTypeError.mk) := by
  refine ⟨?_, ?_, ?_⟩ <;> intro p
  · intro hl
    simp [TelegramPerson.fullname, hl]
  · intro f l hf hl
    simp [TelegramPerson.fullname, hf, hl]
  · intro l hf hl
    simp [TelegramPerson.fullname, hf, hl]

/-- Witness for C10 at concrete persons: both names present, only the
first name present, and a missing first name with a present last name. -/
theorem telegram_person_fullname_spec_witness :
    TelegramPerson.fullname ⟨7, some "Ada", none, none⟩ = .ok (some "Ada") ∧
    TelegramPerson.fullname ⟨7, some "Ada", some "Lovelace", none⟩ =
      .ok (some "Ada Lovelace") ∧
    TelegramPerson.fullname ⟨7, none, some "Lovelace", none⟩ =
      .error PyTypeError.mk := by
  refine ⟨?_, ?_, ?_⟩
  · exact telegram_person_fullname_spec.1 ⟨7, some "Ada", none, none⟩ rfl
  · exact telegram_person_fullname_spec.2.1 ⟨7, some "Ada", some "Lovelace", none⟩
      "Ada" "Lovelace" rfl rfl
  · exact telegram_person_fullname_spec.2.2 ⟨7, none, some "Lovelace", none⟩
      "Lovelace" rfl rfl

set_option maxRecDepth 4000 in
/-- C6: every room lifecycle operation unconditionally raises
RoomsNotSupportedError carrying the explanatory default message; being
pure functions of their arguments, they have no side effects. -/
theorem room_operations_unsupported :
    (∀ (r : TelegramRoom) (u p : Option String),
      r.join u p = .error (RoomsNotSupportedError.new none)) ∧
    (∀ r : TelegramRoom, r.create = .error (RoomsNotSupportedError.new none)) ∧
    (∀ (r : TelegramRoom) (reason : Option String),
      r.leave reason = .error (RoomsNotSupportedError.new none)) ∧
    (∀ r : TelegramRoom, r.destroy = .error (RoomsNotSupportedError.new none)) ∧
    (∀ r : TelegramRoom, r.joined = .error (RoomsNotSupportedError.new none)) ∧
    (∀ r : TelegramRoom, r.exists_room = .error (RoomsNotSupportedError.new none)) ∧
    (∀ r : TelegramRoom, r.topic = .error (RoomsNotSupportedError.new none)) ∧
    (∀ r : TelegramRoom, r.occupants = .error (RoomsNotSupportedError.new none)) ∧
    (∀ (r : TelegramRoom) (args : List String),
      r.invite args = .error (RoomsNotSupportedError.new none)) ∧
    (∀ s : String, query_room s = .error (RoomsNotSupportedError.new none)) ∧
    rooms = .error (RoomsNotSupportedError.new none) ∧
    (RoomsNotSupportedError.new none).message = roomsNotSupportedDefaultMessage ∧
    roomsNotSupportedDefaultMessage.isEmpty = false := by
  refine ⟨fun _ _ _ => rfl, fun _ => rfl, fun _ _ => rfl, fun _ => rfl,
    fun _ => rfl, fun _ => rfl, fun _ => rfl, fun _ => rfl,
    fun _ _ => rfl, fun _ => rfl, rfl, rfl, ?_⟩
  decide

/-! ## Theorems: batch processing, loop exit, normalizer, sender -/

/-- C1: after a batch is processed, the persisted cursor under the fixed
key equals the last update's sequence id plus one, for every callback
behaviour (so regardless of how many updates failed normalization or
dispatch or were discarded); moreover a persist for every update of the
batch appears in the trace, so processing continued past failures. -/
theorem serve_once_cursor_after_batch
    (cb : NormalizedMessage → Except PyExc Unit) (bid : TelegramIdentifier)
    (st : LoopState) (batch : List Update) (u_last : Update)
    (h : batch.getLast? = some u_last) :
    kv_get (process_batch cb bid st batch).1.store offsetKey =
      some (u_last.update_id + 1) ∧
    ∀ u ∈ batch,
      Event.persist offsetKey (u.update_id + 1) ∈ (process_batch cb bid st batch).2 := by
  induction batch generalizing st with
  | nil => simp at h
  | cons u rest ih =>
    cases rest with
    | nil =>
      simp only [List.getLast?_singleton, Option.some.injEq] at h
      subst h
      constructor
      · simp only [process_batch]
        rw [process_update_fst, kv_get_set_self]
      · intro x hx
        simp only [List.mem_singleton] at hx
        subst hx
        simp only [process_batch, List.append_nil]
        exact process_update_persist_mem cb bid st x
    | cons v rest' =>
      rw [List.getLast?_cons_cons] at h
      rcases ih (process_update cb bid st u).1 h with ⟨ih1, ih2⟩
      constructor
      · simp only [process_batch] at ih1 ⊢
        exact ih1
      · intro x hx
        simp only [process_batch] at ih2 ⊢
        rcases List.mem_cons.mp hx with rfl | hx'
        · exact List.mem_append_left _ (process_update_persist_mem cb bid st x)
        · exact List.mem_append_right _ (ih2 x hx')

/-- Witness for C1 on the batch with sequence ids 5, 6, 9, under a
callback that fails on every message, with update 5 lacking a message
attribute and update 9 lacking a text payload: the persisted cursor is
still 10 and the persist for update 5 is in the trace. -/
theorem serve_once_cursor_after_batch_witness :
    kv_get (process_batch (fun _ => .error ⟨"boom"⟩)
        (.person ⟨1, none, none, none⟩) ⟨0, []⟩
        [⟨5, none⟩,
         ⟨6, some ⟨some "hi", .group (-10) (some "G"), ⟨3, none, none, none⟩⟩⟩,
         ⟨9, some ⟨none, .user ⟨3, none, none, none⟩, ⟨3, none, none, none⟩⟩⟩]).1.store
      offsetKey = some 10 ∧
    Event.persist offsetKey 6 ∈
      (process_batch (fun _ => .error ⟨"boom"⟩)
        (.person ⟨1, none, none, none⟩) ⟨0, []⟩
        [⟨5, none⟩,
         ⟨6, some ⟨some "hi", .group (-10) (some "G"), ⟨3, none, none, none⟩⟩⟩,
         ⟨9, some ⟨none, .user ⟨3, none, none, none⟩, ⟨3, none, none, none⟩⟩⟩]).2 := by
  have h := serve_once_cursor_after_batch (fun _ => .error ⟨"boom"⟩)
    (.person ⟨1, none, none, none⟩) ⟨0, []⟩
    [⟨5, none⟩,
     ⟨6, some ⟨some "hi", .group (-10) (some "G"), ⟨3, none, none, none⟩⟩⟩,
     ⟨9, some ⟨none, .user ⟨3, none, none, none⟩, ⟨3, none, none, none⟩⟩⟩]
    ⟨9, some ⟨none, .user ⟨3, none, none, none⟩, ⟨3, none, none, none⟩⟩⟩ rfl
  exact ⟨h.1, h.2 ⟨5, none⟩ (by simp)⟩

/-- Witness for C2 at a concrete update carrying a text message: the
persist heads the trace, the dispatch in the tail is not a persist, and
the store holds the advanced cursor. -/
theorem process_update_persist_before_dispatch_witness :
    (process_update (fun _ => .ok ()) (.person ⟨1, none, none, none⟩) ⟨0, []⟩
        ⟨5, some ⟨some "hi", .user ⟨2, none, none, none⟩, ⟨2, none, none, none⟩⟩⟩).2.head? =
      some (.persist offsetKey 6) ∧
    isPersist (Event.dispatch ⟨"hi", .person ⟨2, none, none, none⟩,
      .person ⟨1, none, none, none⟩⟩) = false ∧
    kv_get (process_update (fun _ => .ok ()) (.person ⟨1, none, none, none⟩) ⟨0, []⟩
        ⟨5, some ⟨some "hi", .user ⟨2, none, none, none⟩,
          ⟨2, none, none, none⟩⟩⟩).1.store offsetKey = some 6 := by
  have h := process_update_persist_before_dispatch (fun _ => .ok ())
    (.person ⟨1, none, none, none⟩) ⟨0, []⟩
    ⟨5, some ⟨some "hi", .user ⟨2, none, none, none⟩, ⟨2, none, none, none⟩⟩⟩
  exact ⟨h.1, h.2.1 _ (by decide), h.2.2⟩

/-- C4: for a text-carrying update from a direct chat the normalizer
dispatches a message whose sender is the TelegramPerson built from the
update's user fields and whose recipient is the bot's own identity; from
a group chat, the sender is the TelegramMUCOccupant wrapping the user
fields plus the TelegramRoom built from the chat fields, and the
recipient is that room with matching id and title. -/
theorem handle_message_sender_recipient
    (cb : NormalizedMessage → Except PyExc Unit) (bid : TelegramIdentifier)
    (m : RawMessage) (t : String) (htext : m.text = some t) :
    (∀ du, m.chat = .user du →
      (handle_message cb bid m).2 =
        [Event.dispatch ⟨t, .person ⟨m.from_user.id, m.from_user.first_name,
          m.from_user.last_name, m.from_user.username⟩, bid⟩]) ∧
    (∀ cid ctitle, m.chat = .group cid ctitle →
      (handle_message cb bid m).2 =
        [Event.dispatch ⟨t, .occupant ⟨m.from_user.id, ⟨cid, ctitle⟩,
          m.from_user.first_name, m.from_user.last_name, m.from_user.username⟩,
          .room ⟨cid, ctitle⟩⟩]) := by
  constructor
  · intro du hchat
    rw [handle_message_snd_of_text htext]
    unfold normalize_message
    rw [hchat]
  · intro cid ctitle hchat
    rw [handle_message_snd_of_text htext]
    unfold normalize_message
    rw [hchat]

/-- Witness for C4 at a concrete direct-chat update and a concrete
group-chat update. -/
theorem handle_message_sender_recipient_witness :
    (handle_message (fun _ => .ok ()) (.person ⟨1, some "Bot", none, some "bot"⟩)
        ⟨some "hi", .user ⟨3, some "Ada", none, some "ada"⟩,
          ⟨3, some "Ada", none, some "ada"⟩⟩).2 =
      [Event.dispatch ⟨"hi", .person ⟨3, some "Ada", none, some "ada"⟩,
        .person ⟨1, some "Bot", none, some "bot"⟩⟩] ∧
    (handle_message (fun _ => .ok ()) (.person ⟨1, some "Bot", none, some "bot"⟩)
        ⟨some "yo", .group (-10) (some "G"),
          ⟨3, some "Ada", none, some "ada"⟩⟩).2 =
      [Event.dispatch ⟨"yo", .occupant ⟨3, ⟨-10, some "G"⟩, some "Ada", none, some "ada"⟩,
        .room ⟨-10, some "G"⟩⟩] := by
  constructor
  · exact (handle_message_sender_recipient (fun _ => .ok ())
      (.person ⟨1, some "Bot", none, some "bot"⟩)
      ⟨some "hi", .user ⟨3, some "Ada", none, some "ada"⟩,
        ⟨3, some "Ada", none, some "ada"⟩⟩ "hi" rfl).1
      ⟨3, some "Ada", none, some "ada"⟩ rfl
  · exact (handle_message_sender_recipient (fun _ => .ok ())
      (.person ⟨1, some "Bot", none, some "bot"⟩)
      ⟨some "yo", .group (-10) (some "G"),
        ⟨3, some "Ada", none, some "ada"⟩⟩ "yo" rfl).2
      (-10) (some "G") rfl

/-- C7: on every exit of the polling loop exactly one disconnect
notification appears in the trace; the loop reports success (returns
True) exactly when it ended by an external interrupt, and returns None,
a failure report, on a batch-fetch error. -/
theorem serve_once_disconnect_exactly_once
    (cb : NormalizedMessage → Except PyExc Unit) (bid : TelegramIdentifier)
    (st : LoopState) (batches : List (List Update)) (fin : FetchEnd) :
    countDisconnect (serve_once_polling cb bid st batches fin).2.2 = 1 ∧
    (serve_once_polling cb bid st batches fin).1 =
      (match fin with | .interrupted => some true | .fetchError => none) ∧
    ((serve_once_polling cb bid st batches fin).1 = some true ↔
      fin = FetchEnd.interrupted) := by
  cases fin with
  | interrupted =>
    refine ⟨?_, rfl, by simp [serve_once_polling]⟩
    show countDisconnect ((process_batches cb bid st batches).2 ++ [.disconnect]) = 1
    rw [countDisconnect_append, countDisconnect_process_batches]
    rfl
  | fetchError =>
    refine ⟨?_, rfl, by simp [serve_once_polling]⟩
    show countDisconnect ((process_batches cb bid st batches).2 ++
      [.errorLogged "Error reading from Telegram updates stream:", .disconnect]) = 1
    rw [countDisconnect_append, countDisconnect_process_batches]
    rfl

/-- C8: when the provider send call fails, send_message logs the failure
with the recipient id and the original message body and re-raises the
same exception; when it succeeds, no error is raised and nothing is
logged. -/
theorem send_message_failure_logged_reraised
    (convert : String → String) (tg_send : Int → String → Except PyExc Unit)
    (mess : OutgoingMessage) :
    (tg_send mess.«to».id (convert mess.body) = .ok () →
      send_message convert tg_send mess =
        (.ok (), [.sendAttempt mess.«to».id (convert mess.body)])) ∧
    (∀ e, tg_send mess.«to».id (convert mess.body) = .error e →
      send_message convert tg_send mess =
        (.error e, [.sendAttempt mess.«to».id (convert mess.body),
          .sendFailureLogged mess.«to».id mess.body])) := by
  constructor
  · intro h
    simp only [send_message, h]
  · intro e h
    simp only [send_message, h]

/-- Witness for C8 at a concrete message with a failing and a succeeding
provider send call. -/
theorem send_message_failure_logged_reraised_witness :
    send_message (fun s => s) (fun _ _ => .error ⟨"net down"⟩)
        ⟨"hello", .person ⟨5, none, none, none⟩⟩ =
      (.error ⟨"net down"⟩, [.sendAttempt 5 "hello", .sendFailureLogged 5 "hello"]) ∧
    send_message (fun s => s) (fun _ _ => .ok ())
        ⟨"hello", .person ⟨5, none, none, none⟩⟩ =
      (.ok (), [.sendAttempt 5 "hello"]) := by
  constructor
  · exact (send_message_failure_logged_reraised (fun s => s)
      (fun _ _ => .error ⟨"net down"⟩)
      ⟨"hello", .person ⟨5, none, none, none⟩⟩).2 ⟨"net down"⟩ rfl
  · exact (send_message_failure_logged_reraised (fun s => s) (fun _ _ => .ok ())
      ⟨"hello", .person ⟨5, none, none, none⟩⟩).1 rfl

end TelegramMessenger
